import Mathlib

/-!
Verification of the restaurant-ordering application.

The embedding below translates, from the repository source:
  * the database schema and row-level-security (RLS) policies of the SQL
    migration (tables `profiles`, `restaurants`, `dishes`, `orders`,
    `order_items`, each with `ENABLE ROW LEVEL SECURITY` and a list of
    `CREATE POLICY` statements);
  * the client-side cart logic of `CustomerDashboard.tsx`
    (`addToCart`, `updateCartItem`);
  * order placement, `handlePlaceOrder` in `Cart.tsx`;
  * the dish edit form submission, `handleSubmit` in `DishForm.tsx`.

Ids are `uuid` columns generated by the backend; they are modelled as `Nat`.
`numeric` columns (prices, totals) are modelled as `ℚ` (Postgres `numeric`
is exact decimal arithmetic).  `created_at` / `updated_at` timestamp columns
carry no logic in the source (no triggers) and are omitted.
-/

/-- A row of the `profiles` table. `user_type` is constrained by the table
CHECK to be `customer` or `seller`. -/
structure Profile where
  id : Nat
  email : String
  full_name : String
  user_type : String
deriving Repr, DecidableEq

/-- A row of the `restaurants` table. -/
structure Restaurant where
  id : Nat
  seller_id : Nat
  name : String
  description : String
  address : String
  phone : String
  image_url : String
  is_active : Bool
deriving Repr, DecidableEq

/-- A row of the `dishes` table. -/
structure Dish where
  id : Nat
  restaurant_id : Nat
  name : String
  description : String
  price : ℚ
  image_url : String
  category : String
  is_available : Bool
deriving Repr, DecidableEq

/-- A row of the `orders` table. -/
structure Order where
  id : Nat
  customer_id : Nat
  restaurant_id : Nat
  total_amount : ℚ
  status : String
  delivery_address : String
  notes : String
deriving Repr, DecidableEq

/-- A row of the `order_items` table. -/
structure OrderItem where
  id : Nat
  order_id : Nat
  dish_id : Nat
  quantity : Nat
  price : ℚ
deriving Repr, DecidableEq

/-- The database state: one list of rows per table of the migration. -/
structure DB where
  profiles : List Profile
  restaurants : List Restaurant
  dishes : List Dish
  orders : List Order
  order_items : List OrderItem
deriving Repr

/-! ### RLS policies on `restaurants` (SQL migration)

Two permissive SELECT policies; a row is visible when at least one allows it.
-/

/-- Policy `Anyone can view active restaurants`: `USING (is_active = true)`. -/
def anyoneCanViewActiveRestaurants (r : Restaurant) : Bool :=
  r.is_active == true

/-- Policy `Sellers can view own restaurants`: `USING (seller_id = auth.uid())`. -/
def sellersCanViewOwnRestaurants (uid : Nat) (r : Restaurant) : Bool :=
  r.seller_id == uid

/-- The effective SELECT predicate on `restaurants`: the OR of the two
permissive SELECT policies. -/
def restaurantSelectAllowed (uid : Nat) (r : Restaurant) : Bool :=
  anyoneCanViewActiveRestaurants r || sellersCanViewOwnRestaurants uid r

/-- The rows of `restaurants` an authenticated caller `uid` receives from a
SELECT: the table filtered by the effective SELECT predicate. -/
def visibleRestaurants (db : DB) (uid : Nat) : List Restaurant :=
  db.restaurants.filter (restaurantSelectAllowed uid)

/-! ### RLS policies on `dishes` (SQL migration) -/

/-- Policy `Anyone can view available dishes`:
`USING (is_available = true AND EXISTS (SELECT 1 FROM restaurants WHERE
restaurants.id = dishes.restaurant_id AND restaurants.is_active = true))`. -/
def anyoneCanViewAvailableDishes (db : DB) (d : Dish) : Bool :=
  d.is_available == true &&
    db.restaurants.any (fun r => r.id == d.restaurant_id && r.is_active == true)

/-- Policy `Sellers can view own dishes`:
`USING (EXISTS (SELECT 1 FROM restaurants WHERE restaurants.id =
dishes.restaurant_id AND restaurants.seller_id = auth.uid()))`. -/
def sellersCanViewOwnDishes (db : DB) (uid : Nat) (d : Dish) : Bool :=
  db.restaurants.any (fun r => r.id == d.restaurant_id && r.seller_id == uid)

/-- The effective SELECT predicate on `dishes`: OR of the two permissive
SELECT policies. -/
def dishSelectAllowed (db : DB) (uid : Nat) (d : Dish) : Bool :=
  anyoneCanViewAvailableDishes db d || sellersCanViewOwnDishes db uid d

/-- Policy `Sellers can delete own dishes`:
`USING (EXISTS (SELECT 1 FROM restaurants WHERE restaurants.id =
dishes.restaurant_id AND restaurants.seller_id = auth.uid()))`. -/
def dishDeleteAllowed (db : DB) (uid : Nat) (d : Dish) : Bool :=
  db.restaurants.any (fun r => r.id == d.restaurant_id && r.seller_id == uid)

/-! ### RLS policies on `orders` (SQL migration) -/

/-- Policy `Customers can update own orders`, `USING` side:
`customer_id = auth.uid()`. -/
def customersCanUpdateOwnOrders (uid : Nat) (o : Order) : Bool :=
  o.customer_id == uid

/-- Policy `Sellers can update orders for their restaurants`, `USING` side:
`EXISTS (SELECT 1 FROM restaurants WHERE restaurants.id = orders.restaurant_id
AND restaurants.seller_id = auth.uid())`. -/
def sellersCanUpdateOrdersForTheirRestaurants (db : DB) (uid : Nat) (o : Order) : Bool :=
  db.restaurants.any (fun r => r.id == o.restaurant_id && r.seller_id == uid)

/-- The effective UPDATE predicate on a targeted `orders` row (`USING` side):
OR of the two permissive UPDATE policies.  (Each policy's `WITH CHECK`
clause repeats the same condition on the post-update row.) -/
def orderUpdateAllowed (db : DB) (uid : Nat) (o : Order) : Bool :=
  customersCanUpdateOwnOrders uid o ||
    sellersCanUpdateOrdersForTheirRestaurants db uid o

/-! ### RLS policies on `profiles` (SQL migration) -/

/-- Policy `Users can update own profile`, `USING` side: `auth.uid() = id`. -/
def usersCanUpdateOwnProfileUsing (uid : Nat) (p : Profile) : Bool :=
  uid == p.id

/-- Policy `Users can update own profile`, `WITH CHECK` side (on the
post-update row): `auth.uid() = id`. -/
def usersCanUpdateOwnProfileCheck (uid : Nat) (p : Profile) : Bool :=
  uid == p.id

/-- Table constraint on `profiles`:
`CHECK (user_type IN ('customer', 'seller'))`. -/
def profileRowCheck (p : Profile) : Bool :=
  p.user_type == "customer" || p.user_type == "seller"

/-- Run an UPDATE on `profiles` targeting rows with `id = targetId`
(the client issues `.update(payload).eq('id', ...)`), as gated by RLS:
a row is rewritten only if the `USING` clause admits the old row and the
`WITH CHECK` clause and table CHECK admit the new row; otherwise the row
is left unchanged (the statement is rejected). -/
def runProfileUpdate (db : DB) (uid targetId : Nat) (f : Profile → Profile) : DB :=
  { db with profiles := db.profiles.map (fun p =>
      if p.id == targetId && usersCanUpdateOwnProfileUsing uid p then
        let p2 := f p
        if usersCanUpdateOwnProfileCheck uid p2 && profileRowCheck p2 then p2 else p
      else p) }

/-! ### RLS policies on `order_items` (SQL migration)

The migration enables RLS on `order_items` and creates exactly three
policies: two for SELECT and one for INSERT.  With RLS enabled, an
operation with no matching policy is denied (default deny). -/

/-- The SQL operation a policy is declared `FOR`. -/
inductive Op
  | select
  | insert
  | update
  | delete
deriving Repr, DecidableEq

/-- One RLS policy on `order_items`: the operation it is declared for and
its predicate over (database, caller uid, row). -/
structure ItemPolicy where
  op : Op
  check : DB → Nat → OrderItem → Bool

/-- The complete list of `CREATE POLICY` statements on `order_items` in the
migration: `Customers can view own order items`, `Sellers can view order
items for their restaurants`, `Customers can insert own order items`. -/
def orderItemPolicies : List ItemPolicy :=
  [ { op := Op.select
      check := fun db uid oi =>
        db.orders.any (fun o => o.id == oi.order_id && o.customer_id == uid) },
    { op := Op.select
      check := fun db uid oi =>
        db.orders.any (fun o => o.id == oi.order_id &&
          db.restaurants.any (fun r => r.id == o.restaurant_id && r.seller_id == uid)) },
    { op := Op.insert
      check := fun db uid oi =>
        db.orders.any (fun o => o.id == oi.order_id && o.customer_id == uid) } ]

/-- Whether operation `op` on row `oi` of `order_items` is permitted for
caller `uid`: some policy declared for `op` allows it (default deny). -/
def orderItemOpAllowed (op : Op) (db : DB) (uid : Nat) (oi : OrderItem) : Bool :=
  (orderItemPolicies.filter (fun p => p.op == op)).any (fun p => p.check db uid oi)

/-! ### Client-side cart state (`CustomerDashboard.tsx`) -/

/-- One entry of the ephemeral client cart: `{ dish, restaurant, quantity }`. -/
structure CartItem where
  dish : Dish
  restaurant : Restaurant
  quantity : Nat
deriving Repr

/-- `addToCart(dish, restaurant)`: if an entry with the same dish id exists,
increment its quantity by 1 (via map); otherwise append a new entry with
quantity 1. -/
def addToCart (cart : List CartItem) (dish : Dish) (restaurant : Restaurant) :
    List CartItem :=
  if cart.any (fun item => item.dish.id == dish.id) then
    cart.map (fun item =>
      if item.dish.id == dish.id then { item with quantity := item.quantity + 1 }
      else item)
  else
    cart ++ [{ dish := dish, restaurant := restaurant, quantity := 1 }]

/-- `updateCartItem(dishId, quantity)`: quantity 0 removes the entry (filter);
otherwise every entry with that dish id gets the new quantity (map). -/
def updateCartItem (cart : List CartItem) (dishId : Nat) (quantity : Nat) :
    List CartItem :=
  if quantity == 0 then
    cart.filter (fun item => item.dish.id != dishId)
  else
    cart.map (fun item =>
      if item.dish.id == dishId then { item with quantity := quantity }
      else item)

/-- A user action on the cart exposed by `CustomerDashboard.tsx`. -/
inductive CartOp
  | add (dish : Dish) (restaurant : Restaurant)
  | update (dishId : Nat) (quantity : Nat)

/-- Apply one cart action. -/
def applyCartOp (cart : List CartItem) : CartOp → List CartItem
  | CartOp.add d r => addToCart cart d r
  | CartOp.update i q => updateCartItem cart i q

/-- Run a sequence of cart actions starting from the empty cart
(`cartItems` is initialised to `[]`). -/
def runCartOps (ops : List CartOp) : List CartItem :=
  ops.foldl applyCartOp []

/-- The quantity stored in the cart for a dish id, if present
(first matching entry). -/
def cartQty (cart : List CartItem) (dishId : Nat) : Option Nat :=
  (cart.find? (fun item => item.dish.id == dishId)).map (fun item => item.quantity)

/-! ### Order placement (`Cart.tsx`) -/

/-- `items.reduce((sum, item) => sum + (item.dish.price * item.quantity), 0)`,
the `total` computed in `Cart.tsx`. -/
def cartTotal (items : List CartItem) : ℚ :=
  items.foldl (fun sum item => sum + item.dish.price * (item.quantity : ℚ)) 0

/-- JavaScript `String.prototype.trim`: strip whitespace from both ends
(structurally recursive embedding of the `deliveryAddress.trim()` call). -/
def jsTrim (s : String) : String :=
  String.mk (((s.data.dropWhile Char.isWhitespace).reverse.dropWhile
    Char.isWhitespace).reverse)

/-- The rows inserted into `order_items` at checkout:
`items.map(item => ({ order_id: order.id, dish_id: item.dish.id,
quantity: item.quantity, price: item.dish.price }))`.  Row ids are
backend-generated; they are modelled as consecutive from `idBase`. -/
def mkOrderItems (idBase orderId : Nat) : List CartItem → List OrderItem
  | [] => []
  | item :: rest =>
      { id := idBase, order_id := orderId, dish_id := item.dish.id,
        quantity := item.quantity, price := item.dish.price } ::
        mkOrderItems (idBase + 1) orderId rest

/-- Outcome of `handlePlaceOrder`. -/
inductive PlaceResult
  | validationFailed
  | orderFailed
  | itemsFailed
  | success
deriving Repr, DecidableEq

/-- `handlePlaceOrder` of `Cart.tsx`.
If the trimmed delivery address is empty, no request is issued.  Otherwise
an `orders` row is inserted with `restaurant_id` taken from the first cart
item (`items[0]?.restaurant.id`; on an empty cart the source reads
`undefined`, modelled by the default 0 — claims about `restaurant_id`
concern non-empty carts), `total_amount` the computed cart total and
status `pending`; then the `order_items` rows are inserted.  The Booleans
`orderInsertOk` / `itemsInsertOk` say whether each backend insert succeeds;
on a failure the catch block only records an error message — the database
state reached so far is kept, with no compensating write. -/
def placedOrder (profileId orderId : Nat) (items : List CartItem)
    (deliveryAddress notes : String) : Order :=
  { id := orderId, customer_id := profileId,
    restaurant_id := ((items.head?).map (fun item => item.restaurant.id)).getD 0,
    total_amount := cartTotal items, status := "pending",
    delivery_address := deliveryAddress, notes := notes }

/-- The two-step write sequence of `handlePlaceOrder`: insert the order,
then insert the items; see the comment on `placedOrder` above. -/
def handlePlaceOrder (db : DB) (profileId orderId itemIdBase : Nat)
    (items : List CartItem) (deliveryAddress notes : String)
    (orderInsertOk itemsInsertOk : Bool) : DB × PlaceResult :=
  if jsTrim deliveryAddress == "" then
    (db, PlaceResult.validationFailed)
  else
    let order : Order := placedOrder profileId orderId items deliveryAddress notes
    if orderInsertOk then
      let db1 := { db with orders := db.orders ++ [order] }
      if itemsInsertOk then
        ({ db1 with
            order_items := db1.order_items ++ mkOrderItems itemIdBase orderId items },
          PlaceResult.success)
      else
        (db1, PlaceResult.itemsFailed)
    else
      (db, PlaceResult.orderFailed)

/-! ### Dish edit form (`DishForm.tsx`) -/

/-- The `dishData` payload built by `handleSubmit` in `DishForm.tsx`:
exactly the fields `restaurant_id`, `name`, `description`, `price`,
`image_url`, `category`. -/
structure DishData where
  restaurant_id : Nat
  name : String
  description : String
  price : ℚ
  image_url : String
  category : String
deriving Repr, DecidableEq

/-- Apply the edit payload to one `dishes` row: the six payload columns are
overwritten, all other columns keep their values. -/
def applyDishUpdate (d : Dish) (payload : DishData) : Dish :=
  { d with
      restaurant_id := payload.restaurant_id, name := payload.name,
      description := payload.description, price := payload.price,
      image_url := payload.image_url, category := payload.category }

/-- The edit branch of `handleSubmit`:
`supabase.from('dishes').update(dishData).eq('id', dish.id)` — every
`dishes` row whose id matches gets the payload columns overwritten. -/
def updateDishRow (db : DB) (dishId : Nat) (payload : DishData) : DB :=
  { db with dishes := db.dishes.map (fun d =>
      if d.id == dishId then applyDishUpdate d payload else d) }

/-! ### Requests touching `order_items`

The exposed interface on `order_items` is: the three RLS policies above
(direct SELECT / INSERT, no UPDATE or DELETE policy), plus the schema's
referential actions — `order_items.order_id REFERENCES orders(id) ON DELETE
CASCADE` and `order_items.dish_id REFERENCES dishes(id) ON DELETE CASCADE` —
so a permitted DELETE on `dishes` (`Sellers can delete own dishes`,
exercised by `handleDeleteDish` in `RestaurantManager.tsx`) cascades into
`order_items`.  Referential cascades bypass row security. -/

/-- A request touching the `order_items` table. -/
inductive ItemsRequest
  | insertItem (uid : Nat) (oi : OrderItem)
  | updateItem (uid : Nat) (itemId : Nat) (f : OrderItem → OrderItem)
  | deleteItem (uid : Nat) (itemId : Nat)
  | deleteDish (uid : Nat) (dishId : Nat)

/-- Whether a request addresses `order_items` directly (as opposed to a
parent-table delete whose referential action cascades into it). -/
def ItemsRequest.isDirect : ItemsRequest → Bool
  | ItemsRequest.insertItem _ _ => true
  | ItemsRequest.updateItem _ _ _ => true
  | ItemsRequest.deleteItem _ _ => true
  | ItemsRequest.deleteDish _ _ => false

/-- Apply one request under RLS.  A direct INSERT appends when the INSERT
policy admits the row; direct UPDATE / DELETE have no policy and are
denied (default deny), leaving the state unchanged.  A DELETE on `dishes`
admitted by `Sellers can delete own dishes` removes the dish rows and, by
`ON DELETE CASCADE`, every `order_items` row referencing them. -/
def applyItemsRequest (db : DB) : ItemsRequest → DB
  | ItemsRequest.insertItem uid oi =>
      if orderItemOpAllowed Op.insert db uid oi then
        { db with order_items := db.order_items ++ [oi] }
      else db
  | ItemsRequest.updateItem uid itemId f =>
      { db with order_items := db.order_items.map (fun oi =>
          if oi.id == itemId && orderItemOpAllowed Op.update db uid oi then f oi
          else oi) }
  | ItemsRequest.deleteItem uid itemId =>
      { db with order_items := db.order_items.filter (fun oi =>
          !(oi.id == itemId && orderItemOpAllowed Op.delete db uid oi)) }
  | ItemsRequest.deleteDish uid dishId =>
      let deleted := db.dishes.filter
        (fun d => d.id == dishId && dishDeleteAllowed db uid d)
      { db with
          dishes := db.dishes.filter
            (fun d => !(d.id == dishId && dishDeleteAllowed db uid d)),
          order_items := db.order_items.filter
            (fun oi => !(deleted.any (fun d => d.id == oi.dish_id))) }

/-- Run a sequence of requests. -/
def runItemsRequests (db : DB) (reqs : List ItemsRequest) : DB :=
  reqs.foldl applyItemsRequest db

/-! ### Fixtures for witnesses and counterexamples -/

/-- An inactive restaurant owned by seller 1. -/
def rInactive : Restaurant :=
  { id := 10, seller_id := 1, name := "R", description := "", address := "",
    phone := "", image_url := "", is_active := false }

/-- An active restaurant owned by seller 1. -/
def rActive : Restaurant :=
  { id := 11, seller_id := 1, name := "S", description := "", address := "",
    phone := "", image_url := "", is_active := true }

/-- An available dish of the active restaurant. -/
def dAvailable : Dish :=
  { id := 20, restaurant_id := 11, name := "D", description := "", price := 5,
    image_url := "", category := "Other", is_available := true }

/-- A pending order by customer 2 at the active restaurant. -/
def oPending : Order :=
  { id := 30, customer_id := 2, restaurant_id := 11, total_amount := 5,
    status := "pending", delivery_address := "a", notes := "" }

/-- An order item of that order, referencing the available dish. -/
def oiStored : OrderItem :=
  { id := 40, order_id := 30, dish_id := 20, quantity := 1, price := 5 }

/-- A database holding the fixtures above. -/
def dbFix : DB :=
  { profiles := [], restaurants := [rInactive, rActive], dishes := [dAvailable],
    orders := [oPending], order_items := [oiStored] }

/-! ### Claim C2 -/

/-- Claim C2: the effective SELECT predicate on `restaurants` permits caller
`uid` to read row `r` iff `r.is_active = true` or `r.seller_id = uid`;
consequently an inactive restaurant is invisible to every caller other than
its seller (zero rows from a SELECT). -/
theorem restaurant_select_iff (uid : Nat) (r : Restaurant) :
    (restaurantSelectAllowed uid r = true ↔
      (r.is_active = true ∨ r.seller_id = uid)) ∧
    (∀ db : DB, r.is_active = false → uid ≠ r.seller_id →
      r ∉ visibleRestaurants db uid) := by
  constructor
  · simp [restaurantSelectAllowed, anyoneCanViewActiveRestaurants,
      sellersCanViewOwnRestaurants]
  · intro db hact hne hmem
    rw [visibleRestaurants, List.mem_filter] at hmem
    have h2 := hmem.2
    simp [restaurantSelectAllowed, anyoneCanViewActiveRestaurants,
      sellersCanViewOwnRestaurants, hact] at h2
    exact hne h2.symm

/-- Witness for C2 at caller 7 and the inactive restaurant of seller 1. -/
theorem restaurant_select_iff_witness :
    (restaurantSelectAllowed 7 rInactive = true ↔
      (rInactive.is_active = true ∨ rInactive.seller_id = 7)) ∧
    (rInactive.is_active = false ∧ 7 ≠ rInactive.seller_id ∧
      rInactive ∉ visibleRestaurants dbFix 7) :=
  ⟨(restaurant_select_iff 7 rInactive).1,
    by decide,
    by decide,
    (restaurant_select_iff 7 rInactive).2 dbFix (by decide) (by decide)⟩

/-! ### Claim C3 -/

/-- Claim C3: given the (unique) parent restaurant of a dish, the effective
SELECT predicate on `dishes` permits caller `uid` to read the dish iff
(the dish is available and the parent restaurant is active) or `uid` owns
the parent restaurant. -/
theorem dish_select_iff (db : DB) (uid : Nat) (d : Dish) (parent : Restaurant)
    (hmem : parent ∈ db.restaurants)
    (hid : parent.id = d.restaurant_id)
    (huniq : ∀ r ∈ db.restaurants, r.id = d.restaurant_id → r = parent) :
    dishSelectAllowed db uid d = true ↔
      ((d.is_available = true ∧ parent.is_active = true) ∨
        parent.seller_id = uid) := by
  simp only [dishSelectAllowed, anyoneCanViewAvailableDishes,
    sellersCanViewOwnDishes, Bool.or_eq_true, Bool.and_eq_true,
    List.any_eq_true, beq_iff_eq]
  constructor
  · rintro (⟨hav, r, hr, hrid, hact⟩ | ⟨r, hr, hrid, hsell⟩)
    · exact Or.inl ⟨hav, huniq r hr hrid ▸ hact⟩
    · exact Or.inr (huniq r hr hrid ▸ hsell)
  · rintro (⟨hav, hact⟩ | hsell)
    · exact Or.inl ⟨hav, parent, hmem, hid, hact⟩
    · exact Or.inr ⟨parent, hmem, hid, hsell⟩

/-- Witness for C3: caller 2 does not own the active restaurant, the dish is
available and the restaurant active, so the dish is readable. -/
theorem dish_select_iff_witness :
    (dishSelectAllowed dbFix 2 dAvailable = true ↔
      ((dAvailable.is_available = true ∧ rActive.is_active = true) ∨
        rActive.seller_id = 2)) ∧
    rActive ∈ dbFix.restaurants ∧ rActive.id = dAvailable.restaurant_id :=
  ⟨dish_select_iff dbFix 2 dAvailable rActive (by decide) (by decide)
      (by decide),
    by decide, by decide⟩

/-! ### Claim C4 -/

/-- Claim C4: given the (unique) parent restaurant of an order, the effective
UPDATE predicate on `orders` permits caller `uid` to update the order iff
`uid` is the order's customer or `uid` owns the parent restaurant. -/
theorem order_update_iff (db : DB) (uid : Nat) (o : Order) (parent : Restaurant)
    (hmem : parent ∈ db.restaurants)
    (hid : parent.id = o.restaurant_id)
    (huniq : ∀ r ∈ db.restaurants, r.id = o.restaurant_id → r = parent) :
    orderUpdateAllowed db uid o = true ↔
      (uid = o.customer_id ∨ uid = parent.seller_id) := by
  simp only [orderUpdateAllowed, customersCanUpdateOwnOrders,
    sellersCanUpdateOrdersForTheirRestaurants, Bool.or_eq_true,
    Bool.and_eq_true, List.any_eq_true, beq_iff_eq]
  constructor
  · rintro (hcust | ⟨r, hr, hrid, hsell⟩)
    · exact Or.inl hcust.symm
    · exact Or.inr (huniq r hr hrid ▸ hsell).symm
  · rintro (hcust | hsell)
    · exact Or.inl hcust.symm
    · exact Or.inr ⟨parent, hmem, hid, hsell.symm⟩

/-- Witness for C4: caller 3 is neither the customer nor the owning seller,
so the pending order is not updatable by caller 3. -/
theorem order_update_iff_witness :
    (orderUpdateAllowed dbFix 3 oPending = true ↔
      (3 = oPending.customer_id ∨ 3 = rActive.seller_id)) ∧
    orderUpdateAllowed dbFix 3 oPending = false :=
  ⟨order_update_iff dbFix 3 oPending rActive (by decide) (by decide) (by decide),
    by decide⟩

/-! ### Claim C9 -/

/-- Claim C9: submitting the dish edit form overwrites only the payload
columns (`restaurant_id`, `name`, `description`, `price`, `image_url`,
`category`); in particular every row keeps its id and its `is_available`
flag, and rows with a different id are completely unchanged. -/
theorem dish_edit_frame (db : DB) (dishId : Nat) (payload : DishData) :
    ((updateDishRow db dishId payload).dishes.map
        (fun d => (d.id, d.is_available))) =
      db.dishes.map (fun d => (d.id, d.is_available)) ∧
    (∀ d : Dish, (applyDishUpdate d payload).is_available = d.is_available) ∧
    (∀ d ∈ db.dishes, d.id ≠ dishId →
      d ∈ (updateDishRow db dishId payload).dishes) ∧
    (∀ d ∈ db.dishes, d.id = dishId →
      applyDishUpdate d payload ∈ (updateDishRow db dishId payload).dishes) := by
  refine ⟨?_, fun d => rfl, ?_, ?_⟩
  · rw [updateDishRow, List.map_map]
    refine List.map_congr_left ?_
    intro d _
    by_cases h : d.id = dishId
    · simp [h, applyDishUpdate]
    · simp [h]
  · intro d hd hne
    rw [updateDishRow]
    refine List.mem_map.mpr ⟨d, hd, ?_⟩
    simp [hne]
  · intro d hd he
    rw [updateDishRow]
    exact List.mem_map.mpr ⟨d, hd, by simp [he]⟩

/-- Witness for C9 at a concrete database and payload: the stored dish keeps
`is_available = true` after an edit that changes its name and price. -/
theorem dish_edit_frame_witness :
    ((updateDishRow dbFix 20
        { restaurant_id := 11, name := "D2", description := "x", price := 7,
          image_url := "", category := "Main" }).dishes.map
        (fun d => (d.id, d.is_available))) =
      dbFix.dishes.map (fun d => (d.id, d.is_available)) ∧
    dAvailable ∈ dbFix.dishes ∧ dAvailable.id = 20 :=
  ⟨(dish_edit_frame dbFix 20
      { restaurant_id := 11, name := "D2", description := "x", price := 7,
        image_url := "", category := "Main" }).1,
    by simp [dbFix], by decide⟩

/-! ### Order placement lemmas -/

/-- Folding the running total over the cart equals the accumulator plus the
sum of per-item subtotals. -/
theorem cartTotal_foldl (f : CartItem → ℚ) :
    ∀ (l : List CartItem) (a : ℚ),
      l.foldl (fun sum item => sum + f item) a = a + (l.map f).sum
  | [], a => by simp
  | item :: rest, a => by
      rw [List.foldl_cons, cartTotal_foldl f rest (a + f item), List.map_cons,
        List.sum_cons, add_assoc]

/-- The cart total is the sum over cart items of dish price times quantity. -/
theorem cartTotal_eq_sum (items : List CartItem) :
    cartTotal items =
      (items.map (fun item => item.dish.price * (item.quantity : ℚ))).sum := by
  rw [cartTotal, cartTotal_foldl, zero_add]

/-- One `order_items` row is produced per cart item. -/
theorem mkOrderItems_length :
    ∀ (items : List CartItem) (idBase orderId : Nat),
      (mkOrderItems idBase orderId items).length = items.length
  | [], _, _ => rfl
  | _ :: rest, idBase, orderId => by
      rw [mkOrderItems, List.length_cons, List.length_cons,
        mkOrderItems_length rest (idBase + 1) orderId]

/-- The stored `price` of each produced row is the dish price of the
corresponding cart item. -/
theorem mkOrderItems_price :
    ∀ (items : List CartItem) (idBase orderId : Nat),
      (mkOrderItems idBase orderId items).map (fun oi => oi.price) =
        items.map (fun item => item.dish.price)
  | [], _, _ => rfl
  | _ :: rest, idBase, orderId => by
      rw [mkOrderItems, List.map_cons, List.map_cons,
        mkOrderItems_price rest (idBase + 1) orderId]

/-- Every produced row carries the created order's id. -/
theorem mkOrderItems_order_id :
    ∀ (items : List CartItem) (idBase orderId : Nat),
      ∀ oi ∈ mkOrderItems idBase orderId items, oi.order_id = orderId := by
  intro items
  induction items with
  | nil => intro idBase orderId oi h; cases h
  | cons item rest ih =>
      intro idBase orderId oi h
      rw [mkOrderItems, List.mem_cons] at h
      rcases h with h | h
      · rw [h]
      · exact ih (idBase + 1) orderId oi h

/-- The spec's example cart: dish priced 9.99 with quantity 2 and dish
priced 5.00 with quantity 1, from the same active restaurant. -/
def specCart : List CartItem :=
  [ { dish := { dAvailable with id := 21, price := 9.99 },
      restaurant := rActive, quantity := 2 },
    { dish := { dAvailable with id := 22, price := 5 },
      restaurant := rActive, quantity := 1 } ]

/-! ### Claim C1 -/

/-- Claim C1: with a nonempty delivery address and both inserts succeeding,
placing an order appends exactly one `orders` row whose `total_amount` is
the sum over cart items of dish price times quantity, and appends one
`order_items` row per cart item whose stored `price` is the dish price at
placement; a later dish edit (the only price-changing operation) leaves the
stored `order_items` rows untouched.  In particular the spec's example cart
(price 9.99 with quantity 2, price 5.00 with quantity 1) totals 24.98. -/
theorem place_order_totals (db : DB) (profileId orderId itemIdBase : Nat)
    (items : List CartItem) (addr notes : String)
    (haddr : (jsTrim addr == "") = false) :
    (∃ o : Order,
      (handlePlaceOrder db profileId orderId itemIdBase items addr notes
          true true).1.orders = db.orders ++ [o] ∧
      o.total_amount =
        (items.map (fun item => item.dish.price * (item.quantity : ℚ))).sum ∧
      (handlePlaceOrder db profileId orderId itemIdBase items addr notes
          true true).1.order_items =
        db.order_items ++ mkOrderItems itemIdBase orderId items ∧
      (mkOrderItems itemIdBase orderId items).length = items.length ∧
      (mkOrderItems itemIdBase orderId items).map (fun oi => oi.price) =
        items.map (fun item => item.dish.price) ∧
      (∀ (dishId : Nat) (payload : DishData),
        (updateDishRow (handlePlaceOrder db profileId orderId itemIdBase items
            addr notes true true).1 dishId payload).order_items =
          (handlePlaceOrder db profileId orderId itemIdBase items addr notes
            true true).1.order_items)) ∧
    cartTotal specCart = 2498 / 100 := by
  constructor
  · refine ⟨placedOrder profileId orderId items addr notes,
      ?_, ?_, ?_, ?_, ?_, ?_⟩
    · simp [handlePlaceOrder, haddr]
    · exact cartTotal_eq_sum items
    · simp [handlePlaceOrder, haddr]
    · exact mkOrderItems_length items itemIdBase orderId
    · exact mkOrderItems_price items itemIdBase orderId
    · intro dishId payload
      rfl
  · rw [cartTotal_eq_sum]
    simp [specCart, dAvailable]
    norm_num

/-- Witness for C1: the theorem applied to the spec's example cart with a
concrete nonempty address. -/
theorem place_order_totals_witness :
    ((jsTrim "1 Main St" == "") = false) ∧
    (∃ o : Order,
      (handlePlaceOrder dbFix 2 31 50 specCart "1 Main St" ""
          true true).1.orders = dbFix.orders ++ [o] ∧
      o.total_amount =
        (specCart.map (fun item => item.dish.price * (item.quantity : ℚ))).sum ∧
      (handlePlaceOrder dbFix 2 31 50 specCart "1 Main St" ""
          true true).1.order_items =
        dbFix.order_items ++ mkOrderItems 50 31 specCart ∧
      (mkOrderItems 50 31 specCart).length = specCart.length ∧
      (mkOrderItems 50 31 specCart).map (fun oi => oi.price) =
        specCart.map (fun item => item.dish.price) ∧
      (∀ (dishId : Nat) (payload : DishData),
        (updateDishRow (handlePlaceOrder dbFix 2 31 50 specCart "1 Main St" ""
            true true).1 dishId payload).order_items =
          (handlePlaceOrder dbFix 2 31 50 specCart "1 Main St" ""
            true true).1.order_items)) ∧
    cartTotal specCart = 2498 / 100 :=
  ⟨by decide,
    (place_order_totals dbFix 2 31 50 specCart "1 Main St" "" (by decide)).1,
    (place_order_totals dbFix 2 31 50 specCart "1 Main St" "" (by decide)).2⟩

/-! ### Claim C10 -/

/-- Claim C10: for a non-empty cart, the created order's `restaurant_id` is
the restaurant of the first cart item, and every `order_items` row produced
is attached (by `order_id`) to that single order — regardless of the
restaurants of the later cart items. -/
theorem place_order_first_restaurant (db : DB)
    (profileId orderId itemIdBase : Nat) (first : CartItem)
    (rest : List CartItem) (items : List CartItem) (addr notes : String)
    (hitems : items = first :: rest)
    (haddr : (jsTrim addr == "") = false) :
    ∃ o : Order,
      (handlePlaceOrder db profileId orderId itemIdBase items addr notes
          true true).1.orders = db.orders ++ [o] ∧
      o.restaurant_id = first.restaurant.id ∧
      (handlePlaceOrder db profileId orderId itemIdBase items addr notes
          true true).1.order_items =
        db.order_items ++ mkOrderItems itemIdBase orderId items ∧
      (mkOrderItems itemIdBase orderId items).length = items.length ∧
      (∀ oi ∈ mkOrderItems itemIdBase orderId items, oi.order_id = orderId) := by
  refine ⟨placedOrder profileId orderId items addr notes, ?_, ?_, ?_, ?_, ?_⟩
  · simp [handlePlaceOrder, haddr]
  · rw [placedOrder, hitems]
    rfl
  · simp [handlePlaceOrder, haddr]
  · exact mkOrderItems_length items itemIdBase orderId
  · exact mkOrderItems_order_id items itemIdBase orderId

/-- A second active restaurant, owned by seller 3. -/
def rOther : Restaurant :=
  { id := 12, seller_id := 3, name := "T", description := "", address := "",
    phone := "", image_url := "", is_active := true }

/-- First entry of the mixed cart: a dish of the active restaurant. -/
def mixedFirst : CartItem :=
  { dish := dAvailable, restaurant := rActive, quantity := 1 }

/-- Second entry of the mixed cart: a dish of the other restaurant. -/
def mixedSecond : CartItem :=
  { dish := { dAvailable with id := 23, restaurant_id := 12 },
    restaurant := rOther, quantity := 2 }

/-- A cart mixing two different restaurants. -/
def mixedCart : List CartItem := [mixedFirst, mixedSecond]

/-- Witness for C10 on a cart whose second item belongs to a different
restaurant than the first. -/
theorem place_order_first_restaurant_witness :
    (mixedCart = mixedFirst :: [mixedSecond]) ∧
    ((jsTrim "1 Main St" == "") = false) ∧
    (mixedFirst.restaurant.id ≠ mixedSecond.restaurant.id) ∧
    (∃ o : Order,
      (handlePlaceOrder dbFix 2 32 60 mixedCart "1 Main St" ""
          true true).1.orders = dbFix.orders ++ [o] ∧
      o.restaurant_id = mixedFirst.restaurant.id ∧
      (handlePlaceOrder dbFix 2 32 60 mixedCart "1 Main St" ""
          true true).1.order_items =
        dbFix.order_items ++ mkOrderItems 60 32 mixedCart ∧
      (mkOrderItems 60 32 mixedCart).length = mixedCart.length ∧
      (∀ oi ∈ mkOrderItems 60 32 mixedCart, oi.order_id = 32)) :=
  ⟨rfl, by decide, by decide,
    place_order_first_restaurant dbFix 2 32 60 mixedFirst [mixedSecond]
      mixedCart "1 Main St" "" rfl (by decide)⟩

/-! ### Claim C7 -/

/-- A database with one active restaurant and one dish but no orders yet. -/
def dbOrphan : DB :=
  { profiles := [], restaurants := [rActive], dishes := [dAvailable],
    orders := [], order_items := [] }

/-- Claim C7: there is an execution of order placement in which the order
insert succeeds and the items insert fails, leaving a committed `orders`
row with zero associated `order_items` rows; the handler performs no
compensating write, so this is a terminal state. -/
theorem orphan_order_possible :
    ∃ (db : DB) (profileId orderId itemIdBase : Nat) (items : List CartItem)
      (addr notes : String),
      items ≠ [] ∧
      (handlePlaceOrder db profileId orderId itemIdBase items addr notes
          true false).2 = PlaceResult.itemsFailed ∧
      (∃ o ∈ (handlePlaceOrder db profileId orderId itemIdBase items addr notes
          true false).1.orders, o.id = orderId) ∧
      (handlePlaceOrder db profileId orderId itemIdBase items addr notes
          true false).1.order_items.filter
          (fun oi => oi.order_id == orderId) = [] ∧
      (handlePlaceOrder db profileId orderId itemIdBase items addr notes
          true false).1.order_items = db.order_items := by
  refine ⟨dbOrphan, 2, 33, 70, [mixedFirst], "1 Main St", "",
    by simp, ?_, ?_, ?_, ?_⟩
  · simp [handlePlaceOrder, jsTrim]
  · exact ⟨placedOrder 2 33 [mixedFirst] "1 Main St" "",
      by simp [handlePlaceOrder, jsTrim], rfl⟩
  · simp [handlePlaceOrder, jsTrim, dbOrphan]
  · simp [handlePlaceOrder, jsTrim]

/-! ### Cart lemmas (C8) -/

/-- Mapping a dish-id-preserving function over the cart preserves the list
of dish ids. -/
theorem cart_keys_map (cart : List CartItem) (g : CartItem → CartItem)
    (hg : ∀ item, (g item).dish.id = item.dish.id) :
    (cart.map g).map (fun item => item.dish.id) =
      cart.map (fun item => item.dish.id) := by
  rw [List.map_map]
  exact List.map_congr_left (fun a _ => hg a)

/-- `find?` by dish id commutes with mapping a dish-id-preserving function. -/
theorem cart_find?_map (g : CartItem → CartItem)
    (hg : ∀ item, (g item).dish.id = item.dish.id) (i : Nat) :
    ∀ cart : List CartItem,
      (cart.map g).find? (fun item => item.dish.id == i) =
        (cart.find? (fun item => item.dish.id == i)).map g
  | [] => rfl
  | item :: rest => by
      by_cases h : item.dish.id = i
      · simp [List.find?_cons, hg, h]
      · simp [List.find?_cons, hg, h, cart_find?_map g hg i rest]

/-- The increment function used by `addToCart` preserves dish ids. -/
theorem addToCart_bump_key (d : Dish) :
    ∀ item : CartItem,
      ((fun item => if item.dish.id == d.id
          then { item with quantity := item.quantity + 1 }
          else item) item).dish.id = item.dish.id := by
  intro item
  by_cases hi : item.dish.id = d.id <;> simp [hi]

/-- The replacement function used by `updateCartItem` preserves dish ids. -/
theorem updateCartItem_set_key (i q : Nat) :
    ∀ item : CartItem,
      ((fun item => if item.dish.id == i
          then { item with quantity := q }
          else item) item).dish.id = item.dish.id := by
  intro item
  by_cases hi : item.dish.id = i <;> simp [hi]

/-- `addToCart` preserves distinctness of dish ids. -/
theorem addToCart_nodup (cart : List CartItem) (d : Dish) (r : Restaurant)
    (h : (cart.map (fun item => item.dish.id)).Nodup) :
    ((addToCart cart d r).map (fun item => item.dish.id)).Nodup := by
  rw [addToCart]
  by_cases hmem : cart.any (fun item => item.dish.id == d.id) = true
  · rw [if_pos hmem, cart_keys_map cart _ (addToCart_bump_key d)]
    exact h
  · rw [if_neg hmem, List.map_append]
    rw [List.nodup_append]
    refine ⟨h, List.nodup_singleton _, ?_⟩
    intro a ha hb
    simp only [List.map_cons, List.map_nil, List.mem_singleton] at hb
    rcases List.mem_map.mp ha with ⟨item, hitem, hkey⟩
    refine hmem (List.any_eq_true.mpr ⟨item, hitem, ?_⟩)
    rw [beq_iff_eq, hkey, hb]

/-- `updateCartItem` preserves distinctness of dish ids. -/
theorem updateCartItem_nodup (cart : List CartItem) (i q : Nat)
    (h : (cart.map (fun item => item.dish.id)).Nodup) :
    ((updateCartItem cart i q).map (fun item => item.dish.id)).Nodup := by
  rw [updateCartItem]
  by_cases hq : q = 0
  · rw [if_pos (by simp [hq])]
    exact h.sublist ((List.filter_sublist cart).map _)
  · rw [if_neg (by simp [hq]), cart_keys_map cart _ (updateCartItem_set_key i q)]
    exact h

/-- Distinctness of dish ids is an invariant of every cart-action run. -/
theorem runCartOps_nodup :
    ∀ (ops : List CartOp) (cart : List CartItem),
      (cart.map (fun item => item.dish.id)).Nodup →
      ((ops.foldl applyCartOp cart).map (fun item => item.dish.id)).Nodup
  | [], _, h => h
  | op :: rest, cart, h => by
      rw [List.foldl_cons]
      refine runCartOps_nodup rest _ ?_
      cases op with
      | add d r => exact addToCart_nodup cart d r h
      | update i q => exact updateCartItem_nodup cart i q h

/-- `addToCart` on a dish already present keeps the cart length and bumps the
stored quantity of exactly that dish by one. -/
theorem addToCart_present (cart : List CartItem) (d : Dish) (r : Restaurant)
    (h : cart.any (fun item => item.dish.id == d.id) = true) :
    (addToCart cart d r).length = cart.length ∧
    cartQty (addToCart cart d r) d.id =
      (cartQty cart d.id).map (fun q => q + 1) := by
  rw [addToCart, if_pos h]
  refine ⟨List.length_map cart _, ?_⟩
  rw [cartQty, cart_find?_map _ (addToCart_bump_key d)]
  cases hf : cart.find? (fun item => item.dish.id == d.id) with
  | none => simp [cartQty, hf]
  | some item =>
      have hp := List.find?_some hf
      simp [cartQty, hf, Option.map, hp]

/-- `addToCart` on a dish not in the cart appends a quantity-1 entry. -/
theorem addToCart_absent (cart : List CartItem) (d : Dish) (r : Restaurant)
    (h : cart.any (fun item => item.dish.id == d.id) = false) :
    addToCart cart d r = cart ++ [{ dish := d, restaurant := r, quantity := 1 }] := by
  rw [addToCart, if_neg (by simp [h])]

/-- `updateCartItem` with quantity 0 removes the dish's entry. -/
theorem updateCartItem_zero (cart : List CartItem) (i : Nat) :
    cartQty (updateCartItem cart i 0) i = none := by
  show cartQty (cart.filter (fun item => item.dish.id != i)) i = none
  have hnone : (cart.filter (fun item => item.dish.id != i)).find?
      (fun item => item.dish.id == i) = none := by
    rw [List.find?_eq_none]
    intro x hx
    have h2 := (List.mem_filter.mp hx).2
    simp at h2 ⊢
    exact h2
  rw [cartQty, hnone]
  rfl

/-- `updateCartItem` with a positive quantity keeps the cart length and, when
the dish is present, stores exactly that quantity. -/
theorem updateCartItem_pos (cart : List CartItem) (i q : Nat) (hq : q ≠ 0) :
    (updateCartItem cart i q).length = cart.length ∧
    (cart.any (fun item => item.dish.id == i) = true →
      cartQty (updateCartItem cart i q) i = some q) := by
  rw [updateCartItem, if_neg (by simp [hq])]
  refine ⟨List.length_map cart _, ?_⟩
  intro hany
  rw [cartQty, cart_find?_map _ (updateCartItem_set_key i q)]
  rcases List.any_eq_true.mp hany with ⟨item, hmem, hp⟩
  have hsome : (cart.find? (fun item => item.dish.id == i)).isSome :=
    List.find?_isSome.mpr ⟨item, hmem, hp⟩
  cases hf : cart.find? (fun item => item.dish.id == i) with
  | none => rw [hf] at hsome; cases hsome
  | some it0 =>
      have hp0 := List.find?_some hf
      simp [Option.map, hp0]

/-! ### Claim C8 -/

/-- Claim C8: every run of `addToCart` / `updateCartItem` from the empty cart
keeps at most one entry per dish id; `addToCart` on a present dish bumps that
entry's quantity by one instead of appending, `updateCartItem` with
quantity 0 removes the entry, and a positive quantity replaces it in place
(cart length unchanged, stored quantity becomes the given one). -/
theorem cart_at_most_one_entry_per_dish :
    (∀ ops : List CartOp,
      ((runCartOps ops).map (fun item => item.dish.id)).Nodup) ∧
    (∀ (cart : List CartItem) (d : Dish) (r : Restaurant),
      cart.any (fun item => item.dish.id == d.id) = true →
        (addToCart cart d r).length = cart.length ∧
        cartQty (addToCart cart d r) d.id =
          (cartQty cart d.id).map (fun q => q + 1)) ∧
    (∀ (cart : List CartItem) (d : Dish) (r : Restaurant),
      cart.any (fun item => item.dish.id == d.id) = false →
        addToCart cart d r =
          cart ++ [{ dish := d, restaurant := r, quantity := 1 }]) ∧
    (∀ (cart : List CartItem) (i : Nat),
      cartQty (updateCartItem cart i 0) i = none) ∧
    (∀ (cart : List CartItem) (i q : Nat), q ≠ 0 →
      (updateCartItem cart i q).length = cart.length ∧
      (cart.any (fun item => item.dish.id == i) = true →
        cartQty (updateCartItem cart i q) i = some q)) :=
  ⟨fun ops => runCartOps_nodup ops [] List.nodup_nil,
    addToCart_present, addToCart_absent, updateCartItem_zero,
    updateCartItem_pos⟩

/-- Witness for C8: a concrete run — add dish 20, add it again (bumping the
quantity to 2), add dish 23, set dish 23 to quantity 5, remove dish 20. -/
theorem cart_at_most_one_entry_per_dish_witness :
    (((runCartOps
        [CartOp.add dAvailable rActive,
         CartOp.add dAvailable rActive,
         CartOp.add mixedSecond.dish rOther,
         CartOp.update 23 5,
         CartOp.update 20 0]).map (fun item => item.dish.id)).Nodup) ∧
    ([mixedFirst].any (fun item => item.dish.id == dAvailable.id) = true ∧
      (addToCart [mixedFirst] dAvailable rActive).length = 1 ∧
      cartQty (addToCart [mixedFirst] dAvailable rActive) dAvailable.id =
        (cartQty [mixedFirst] dAvailable.id).map (fun q => q + 1)) ∧
    (cartQty (updateCartItem [mixedFirst] 20 0) 20 = none) ∧
    ((5 : Nat) ≠ 0 ∧ (updateCartItem [mixedFirst] 20 5).length = 1 ∧
      ([mixedFirst].any (fun item => item.dish.id == 20) = true →
        cartQty (updateCartItem [mixedFirst] 20 5) 20 = some 5)) :=
  ⟨cart_at_most_one_entry_per_dish.1
      [CartOp.add dAvailable rActive,
       CartOp.add dAvailable rActive,
       CartOp.add mixedSecond.dish rOther,
       CartOp.update 23 5,
       CartOp.update 20 0],
    ⟨by decide,
      (cart_at_most_one_entry_per_dish.2.1 [mixedFirst] dAvailable rActive
        (by decide)).1,
      (cart_at_most_one_entry_per_dish.2.1 [mixedFirst] dAvailable rActive
        (by decide)).2⟩,
    cart_at_most_one_entry_per_dish.2.2.2.1 [mixedFirst] 20,
    ⟨by decide,
      (cart_at_most_one_entry_per_dish.2.2.2.2 [mixedFirst] 20 5 (by decide)).1,
      (cart_at_most_one_entry_per_dish.2.2.2.2 [mixedFirst] 20 5 (by decide)).2⟩⟩

/-! ### Claim C5 -/

/-- No RLS policy on `order_items` is declared `FOR UPDATE`, so a direct
UPDATE is denied for every caller and row. -/
theorem orderItemUpdate_denied (db : DB) (uid : Nat) (oi : OrderItem) :
    orderItemOpAllowed Op.update db uid oi = false := rfl

/-- No RLS policy on `order_items` is declared `FOR DELETE`, so a direct
DELETE is denied for every caller and row. -/
theorem orderItemDelete_denied (db : DB) (uid : Nat) (oi : OrderItem) :
    orderItemOpAllowed Op.delete db uid oi = false := rfl

/-- A direct `order_items` request can only append rows. -/
theorem applyItemsRequest_direct (db : DB) (req : ItemsRequest)
    (h : req.isDirect = true) :
    ∃ tail, (applyItemsRequest db req).order_items = db.order_items ++ tail := by
  cases req with
  | insertItem uid oi =>
      by_cases hall : orderItemOpAllowed Op.insert db uid oi = true
      · exact ⟨[oi], by simp [applyItemsRequest, hall]⟩
      · exact ⟨[], by simp [applyItemsRequest, hall]⟩
  | updateItem uid itemId f =>
      refine ⟨[], ?_⟩
      rw [List.append_nil]
      show (db.order_items.map (fun oi =>
          if oi.id == itemId && orderItemOpAllowed Op.update db uid oi
            then f oi else oi)) = db.order_items
      have hid : ∀ oi ∈ db.order_items,
          (if oi.id == itemId && orderItemOpAllowed Op.update db uid oi
            then f oi else oi) = oi := by
        intro oi _
        rw [orderItemUpdate_denied]
        simp
      rw [List.map_congr_left hid]
      exact List.map_id' db.order_items
  | deleteItem uid itemId =>
      refine ⟨[], ?_⟩
      have hkeep : ∀ oi : OrderItem,
          (!(oi.id == itemId && orderItemOpAllowed Op.delete db uid oi)) = true := by
        intro oi
        rw [orderItemDelete_denied]
        simp
      simp only [applyItemsRequest, List.append_nil]
      exact List.filter_eq_self.mpr (fun a _ => hkeep a)
  | deleteDish uid dishId => cases h

/-- Under any sequence of direct `order_items` requests, the stored rows are
only appended to. -/
theorem runItemsRequests_direct :
    ∀ (reqs : List ItemsRequest) (db : DB),
      reqs.all ItemsRequest.isDirect = true →
      ∃ tail, (runItemsRequests db reqs).order_items = db.order_items ++ tail
  | [], db, _ => ⟨[], by simp [runItemsRequests]⟩
  | req :: rest, db, h => by
      rw [List.all_cons, Bool.and_eq_true] at h
      obtain ⟨t1, h1⟩ := applyItemsRequest_direct db req h.1
      obtain ⟨t2, h2⟩ :=
        runItemsRequests_direct rest (applyItemsRequest db req) h.2
      refine ⟨t1 ++ t2, ?_⟩
      rw [runItemsRequests, List.foldl_cons, ← runItemsRequests, h2, h1,
        List.append_assoc]

/-- Counterexample to C5 as stated: in the fixture database, seller 1 may
delete dish 20 (`Sellers can delete own dishes`), and the `ON DELETE
CASCADE` on `order_items.dish_id` then removes the stored order item — so
an order_item row can disappear through the exposed interface even though
no direct update/delete on `order_items` is ever permitted. -/
theorem order_item_removed_by_dish_delete :
    oiStored ∈ dbFix.order_items ∧
    dishDeleteAllowed dbFix 1 dAvailable = true ∧
    (applyItemsRequest dbFix (ItemsRequest.deleteDish 1 20)).order_items = [] := by
  refine ⟨by simp [dbFix], by decide, ?_⟩
  rfl

/-- Claim C5 as amended: no direct update or delete on `order_items` is ever
permitted, and any sequence of direct `order_items` operations only appends
rows (an inserted row is never mutated or removed); removal is possible only
through a parent-row delete whose foreign-key action cascades into
`order_items`. -/
theorem order_items_immutable_direct :
    (∀ (db : DB) (uid : Nat) (oi : OrderItem),
      orderItemOpAllowed Op.update db uid oi = false ∧
      orderItemOpAllowed Op.delete db uid oi = false) ∧
    (∀ (db : DB) (reqs : List ItemsRequest),
      reqs.all ItemsRequest.isDirect = true →
      ∃ tail, (runItemsRequests db reqs).order_items = db.order_items ++ tail) :=
  ⟨fun _ _ _ => ⟨rfl, rfl⟩, fun db reqs h => runItemsRequests_direct reqs db h⟩

/-- A direct request list: an insert attempt, a delete attempt and an update
attempt on the stored order item. -/
def directReqs : List ItemsRequest :=
  [ ItemsRequest.insertItem 2
      { id := 41, order_id := 30, dish_id := 20, quantity := 2, price := 5 },
    ItemsRequest.deleteItem 2 40,
    ItemsRequest.updateItem 2 40 (fun oi => { oi with quantity := 9 }) ]

/-- Witness for the amended C5 on the fixture database and the direct
request list. -/
theorem order_items_immutable_direct_witness :
    (orderItemOpAllowed Op.update dbFix 2 oiStored = false ∧
      orderItemOpAllowed Op.delete dbFix 2 oiStored = false) ∧
    directReqs.all ItemsRequest.isDirect = true ∧
    (∃ tail, (runItemsRequests dbFix directReqs).order_items =
      dbFix.order_items ++ tail) :=
  ⟨order_items_immutable_direct.1 dbFix 2 oiStored,
    by decide,
    order_items_immutable_direct.2 dbFix directReqs (by decide)⟩

/-! ### Claim C6 -/

/-- A customer profile owned by identity 1. -/
def pOwner : Profile :=
  { id := 1, email := "o@x", full_name := "O", user_type := "customer" }

/-- A database whose only profile is `pOwner`. -/
def dbProfiles : DB :=
  { profiles := [pOwner], restaurants := [], dishes := [], orders := [],
    order_items := [] }

/-- The update payload flipping `user_type` to `seller`. -/
def makeSeller : Profile → Profile :=
  fun p => { p with user_type := "seller" }

/-- Counterexample to C6 as stated: the owner's own profile update changing
`user_type` from `customer` to `seller` passes the `USING` clause, the
`WITH CHECK` clause and the table CHECK, and the stored role changes — the
policies do not make the role immutable. -/
theorem profile_role_change_is_permitted :
    usersCanUpdateOwnProfileUsing 1 pOwner = true ∧
    usersCanUpdateOwnProfileCheck 1 (makeSeller pOwner) = true ∧
    profileRowCheck (makeSeller pOwner) = true ∧
    (runProfileUpdate dbProfiles 1 1 makeSeller).profiles =
      [makeSeller pOwner] ∧
    (makeSeller pOwner).user_type ≠ pOwner.user_type := by
  exact ⟨rfl, rfl, rfl, rfl, by decide⟩

/-- Claim C6 as amended: only the owner may update a profile row — an update
by any other caller leaves every row (hence its role) unchanged, and no
permitted update changes a row's id; the owner's own permitted update,
however, can change `user_type`, so the role is not fixed at creation. -/
theorem profile_update_owner_only :
    (∀ (db : DB) (uid targetId : Nat) (f : Profile → Profile),
      ((runProfileUpdate db uid targetId f).profiles.map (fun p => p.id)) =
        db.profiles.map (fun p => p.id)) ∧
    (∀ (db : DB) (uid targetId : Nat) (f : Profile → Profile),
      ∀ p ∈ db.profiles, p.id ≠ uid →
        p ∈ (runProfileUpdate db uid targetId f).profiles) ∧
    ((runProfileUpdate dbProfiles 1 1 makeSeller).profiles =
        [makeSeller pOwner] ∧
      (makeSeller pOwner).user_type ≠ pOwner.user_type) := by
  refine ⟨?_, ?_, rfl, by decide⟩
  · intro db uid targetId f
    rw [runProfileUpdate, List.map_map]
    refine List.map_congr_left ?_
    intro p _
    dsimp only [Function.comp]
    by_cases h1 : (p.id == targetId && usersCanUpdateOwnProfileUsing uid p) = true
    · rw [if_pos h1]
      by_cases h2 : (usersCanUpdateOwnProfileCheck uid (f p) &&
          profileRowCheck (f p)) = true
      · rw [if_pos h2]
        have ha : uid = p.id := by
          have hh := (Bool.and_eq_true _ _).mp h1
          have := hh.2
          rwa [usersCanUpdateOwnProfileUsing, beq_iff_eq] at this
        have hb : uid = (f p).id := by
          have hh := (Bool.and_eq_true _ _).mp h2
          have := hh.1
          rwa [usersCanUpdateOwnProfileCheck, beq_iff_eq] at this
        rw [← hb, ← ha]
      · rw [if_neg h2]
    · rw [if_neg h1]
  · intro db uid targetId f p hp hne
    rw [runProfileUpdate]
    refine List.mem_map.mpr ⟨p, hp, ?_⟩
    have husing : usersCanUpdateOwnProfileUsing uid p = false := by
      rw [usersCanUpdateOwnProfileUsing, beq_eq_false_iff_ne]
      exact fun h => hne h.symm
    rw [husing]
    simp

/-- Witness for the amended C6: caller 2 updating profile 1 changes nothing,
and ids are preserved. -/
theorem profile_update_owner_only_witness :
    ((runProfileUpdate dbProfiles 2 1 makeSeller).profiles.map
        (fun p => p.id)) = dbProfiles.profiles.map (fun p => p.id) ∧
    pOwner ∈ dbProfiles.profiles ∧ pOwner.id ≠ 2 ∧
    pOwner ∈ (runProfileUpdate dbProfiles 2 1 makeSeller).profiles :=
  ⟨profile_update_owner_only.1 dbProfiles 2 1 makeSeller,
    by simp [dbProfiles],
    by decide,
    profile_update_owner_only.2.1 dbProfiles 2 1 makeSeller pOwner
      (by simp [dbProfiles]) (by decide)⟩
